import Mathlib

/-!
Shallow embedding of the RemitDEX remittance orchestrator:
the error classifier and retry scheduler (DeliveryErrorHandler),
the remittance pipeline (RemittanceEngine.getQuote / executeRemittance),
the DEX-aggregator client retry loop (OneInchAggregator.getQuote),
and the anchor corridor lookup (StellarAnchorService.getAnchorForCorridor).

External calls (aggregator, bridge, anchor HTTP requests) are modelled by an
explicit environment of per-stage outcomes; everything the code computes
itself (tables, classification, fee math, control flow) is translated
directly from the TypeScript source.
-/

namespace RemitDex

/-! ## String helpers: JS `String.prototype.includes` / `startsWith` -/

/-- JS `hay.includes(needle)` on char lists: some suffix of `hay` starts with `needle`. -/
def listIncludes (needle : List Char) : List Char → Bool
  | [] => needle.isPrefixOf ([] : List Char)
  | c :: cs => needle.isPrefixOf (c :: cs) || listIncludes needle cs

/-- JS `hay.includes(needle)`. -/
def strIncludes (hay needle : String) : Bool :=
  listIncludes needle.data hay.data

/-- JS `s.startsWith(p)`. -/
def strStarts (s p : String) : Bool :=
  p.data.isPrefixOf s.data

/-- JS truthiness of a possibly-undefined string (`undefined` and `""` are falsy). -/
def isTruthy : Option String → Bool
  | none => false
  | some s => !(s == "")

/-- JS `a || b` on possibly-undefined strings. -/
def jsOrStr (a b : Option String) : Option String :=
  if isTruthy a then a else b

/-! ## Error taxonomy (`DeliveryErrorType`, `DeliveryError`) -/

/-- The ten-member closed error taxonomy from `DeliveryErrorHandler.ts`. -/
inductive DeliveryErrorType where
  | INSUFFICIENT_FUNDS
  | INVALID_RECIPIENT
  | KYC_REQUIRED
  | COMPLIANCE_BLOCKED
  | ANCHOR_UNAVAILABLE
  | RATE_EXPIRED
  | LIMIT_EXCEEDED
  | TECHNICAL_ERROR
  | NETWORK_ERROR
  | TIMEOUT
  deriving DecidableEq, Repr

/-- A raw JS error as observed by `classifyError`: its message text, its
`error.code`, and `error.response?.data?.error_code`. -/
structure RawError where
  message : String
  code : Option String := none
  responseErrorCode : Option String := none
  deriving DecidableEq, Repr

/-- Classified delivery error (`DeliveryError` interface). -/
structure DeliveryError where
  type : DeliveryErrorType
  message : String
  code : Option String := none
  details : Option String := none
  retryable : Bool
  userAction : Option String := none
  estimatedResolution : Option Nat := none
  deriving DecidableEq, Repr

/-- `DeliveryErrorHandler.classifyError`: deterministic first-match-wins
if-chain over the raw error's message and codes, translated branch by branch
from the source. -/
def classifyError (e : RawError) : DeliveryError :=
  let errorMessage := e.message
  let errorCode := jsOrStr e.code e.responseErrorCode
  if strIncludes errorMessage "insufficient" || errorCode == some "INSUFFICIENT_BALANCE" then
    { type := .INSUFFICIENT_FUNDS
      message := "Insufficient funds in anchor reserve"
      code := errorCode
      retryable := true
      userAction := some "Please try again in a few minutes"
      estimatedResolution := some 15 }
  else if strIncludes errorMessage "invalid recipient" || errorCode == some "INVALID_DEST" then
    { type := .INVALID_RECIPIENT
      message := "Recipient details are invalid or incomplete"
      code := errorCode
      retryable := false
      userAction := some "Please verify recipient information and try again" }
  else if strIncludes errorMessage "KYC" || errorCode == some "NEEDS_INFO" then
    { type := .KYC_REQUIRED
      message := "Additional KYC information required"
      code := errorCode
      retryable := false
      userAction := some "Please complete KYC verification" }
  else if strIncludes errorMessage "compliance" || strIncludes errorMessage "blocked" then
    { type := .COMPLIANCE_BLOCKED
      message := "Transaction blocked for compliance reasons"
      code := errorCode
      retryable := false
      userAction := some "Please contact support for assistance" }
  else if e.code == some "ECONNREFUSED" || e.code == some "ENOTFOUND" then
    { type := .ANCHOR_UNAVAILABLE
      message := "Anchor service temporarily unavailable"
      code := e.code
      retryable := true
      estimatedResolution := some 30 }
  else if strIncludes errorMessage "rate expired" || errorCode == some "RATE_EXPIRED" then
    { type := .RATE_EXPIRED
      message := "Exchange rate expired"
      code := errorCode
      retryable := true
      userAction := some "Getting new rate..." }
  else if strIncludes errorMessage "limit exceeded" || errorCode == some "LIMIT_EXCEEDED" then
    { type := .LIMIT_EXCEEDED
      message := "Transaction limit exceeded"
      code := errorCode
      retryable := false
      userAction := some "Please reduce amount or complete additional verification" }
  else if e.code == some "ETIMEDOUT" || e.code == some "ECONNABORTED" then
    { type := .TIMEOUT
      message := "Request timed out"
      code := e.code
      retryable := true
      estimatedResolution := some 5 }
  else if isTruthy e.code && strStarts (e.code.getD "") "E" then
    { type := .NETWORK_ERROR
      message := "Network error occurred"
      code := e.code
      retryable := true
      estimatedResolution := some 10 }
  else
    { type := .TECHNICAL_ERROR
      message := "An unexpected error occurred"
      code := errorCode
      details := some errorMessage
      retryable := true
      estimatedResolution := some 60 }

/-! ## The spec-side rule list (for the refinement claim C2)

Modelled from the spec: §4.2's ten classification rules as an ordered list,
evaluated first-match-wins, defaulting to `TECHNICAL_ERROR`. -/

/-- One spec rule: a predicate over the raw error and the kind it yields. -/
structure SpecRule where
  cond : RawError → Bool
  kind : DeliveryErrorType

/-- The spec's ten rules in its fixed priority order (§4.2 items 1-10;
item 10 is the default and is represented by the fallback of
`firstMatchKind`). -/
def specRules : List SpecRule :=
  [ ⟨fun e => strIncludes e.message "insufficient" ||
        jsOrStr e.code e.responseErrorCode == some "INSUFFICIENT_BALANCE",
      .INSUFFICIENT_FUNDS⟩
  , ⟨fun e => strIncludes e.message "invalid recipient" ||
        jsOrStr e.code e.responseErrorCode == some "INVALID_DEST",
      .INVALID_RECIPIENT⟩
  , ⟨fun e => strIncludes e.message "KYC" ||
        jsOrStr e.code e.responseErrorCode == some "NEEDS_INFO",
      .KYC_REQUIRED⟩
  , ⟨fun e => strIncludes e.message "compliance" || strIncludes e.message "blocked",
      .COMPLIANCE_BLOCKED⟩
  , ⟨fun e => e.code == some "ECONNREFUSED" || e.code == some "ENOTFOUND",
      .ANCHOR_UNAVAILABLE⟩
  , ⟨fun e => strIncludes e.message "rate expired" ||
        jsOrStr e.code e.responseErrorCode == some "RATE_EXPIRED",
      .RATE_EXPIRED⟩
  , ⟨fun e => strIncludes e.message "limit exceeded" ||
        jsOrStr e.code e.responseErrorCode == some "LIMIT_EXCEEDED",
      .LIMIT_EXCEEDED⟩
  , ⟨fun e => e.code == some "ETIMEDOUT" || e.code == some "ECONNABORTED",
      .TIMEOUT⟩
  , ⟨fun e => isTruthy e.code && strStarts (e.code.getD "") "E",
      .NETWORK_ERROR⟩
  ]

/-- First-match-wins evaluation of a rule list; the default (rule 10) is
`TECHNICAL_ERROR`. -/
def firstMatchKind : List SpecRule → RawError → DeliveryErrorType
  | [], _ => .TECHNICAL_ERROR
  | r :: rs, e => if r.cond e then r.kind else firstMatchKind rs e

/-! ## Retry policies and scheduling (`DeliveryErrorHandler`) -/

/-- `RetryPolicy` interface. -/
structure RetryPolicy where
  maxAttempts : Nat
  backoffMultiplier : Nat
  initialDelay : Nat
  maxDelay : Nat
  retryableErrors : List DeliveryErrorType
  deriving DecidableEq, Repr

/-- The `'default'` policy registered in `initializeRetryPolicies`. -/
def defaultPolicy : RetryPolicy :=
  { maxAttempts := 3
    backoffMultiplier := 2
    initialDelay := 5000
    maxDelay := 300000
    retryableErrors := [.ANCHOR_UNAVAILABLE, .NETWORK_ERROR, .TIMEOUT, .TECHNICAL_ERROR] }

/-- The `'rate_expired'` policy registered in `initializeRetryPolicies`. -/
def rateExpiredPolicy : RetryPolicy :=
  { maxAttempts := 1
    backoffMultiplier := 1
    initialDelay := 0
    maxDelay := 0
    retryableErrors := [.RATE_EXPIRED] }

/-- The `'compliance'` policy registered in `initializeRetryPolicies`. -/
def compliancePolicy : RetryPolicy :=
  { maxAttempts := 0
    backoffMultiplier := 1
    initialDelay := 0
    maxDelay := 0
    retryableErrors := [] }

/-- `DeliveryErrorHandler.getRetryPolicy`. -/
def getRetryPolicy (errorType : DeliveryErrorType) : RetryPolicy :=
  if errorType = .RATE_EXPIRED then rateExpiredPolicy
  else if errorType = .COMPLIANCE_BLOCKED ∨ errorType = .KYC_REQUIRED then compliancePolicy
  else defaultPolicy

/-- The delay computed in `scheduleRetry`:
`Math.min(initialDelay * backoffMultiplier ** attempts, maxDelay)`. -/
def retryDelayFor (policy : RetryPolicy) (attempts : Nat) : Nat :=
  min (policy.initialDelay * policy.backoffMultiplier ^ attempts) policy.maxDelay

/-- What `handleDeliveryError` does after classifying, besides marking the
order `failed`: schedule a retry timer, escalate to manual review, or take
the refund-required path. -/
inductive HandleOutcome where
  | retryScheduled (delay : Nat)
  | manualReviewRequired
  | refundRequired
  deriving DecidableEq, Repr

/-- `DeliveryErrorHandler.scheduleRetry` for a given current attempt count. -/
def scheduleRetry (attempts : Nat) (error : DeliveryError) : HandleOutcome :=
  let policy := getRetryPolicy error.type
  if attempts ≥ policy.maxAttempts then .manualReviewRequired
  else .retryScheduled (retryDelayFor policy attempts)

/-- `DeliveryErrorHandler.handleDeliveryError` for a given current attempt
count of the order: classify, then either schedule a retry (retryable) or
take the non-retryable refund path. In every branch the order's status is
set to `'failed'` before this returns. -/
def handleDeliveryError (attempts : Nat) (error : RawError) : DeliveryError × HandleOutcome :=
  let deliveryError := classifyError error
  if deliveryError.retryable then
    (deliveryError, scheduleRetry attempts deliveryError)
  else
    (deliveryError, .refundRequired)

/-- Outcome trace of `n` consecutive failures of one order, each classified
from the same raw error, with the retry timer firing (and the attempt
counter incrementing) between failures. -/
def failureOutcomes (error : RawError) (n : Nat) : List HandleOutcome :=
  (List.range n).map fun attempts => (handleDeliveryError attempts error).2

/-! ## User-facing messages (`getUserFriendlyMessage`) -/

/-- The fixed per-kind record in `getUserFriendlyMessage`. -/
def userMessageFor : DeliveryErrorType → String
  | .INSUFFICIENT_FUNDS => "Service temporarily unavailable. Please try again in 15 minutes."
  | .INVALID_RECIPIENT => "The recipient information provided is invalid. Please check and try again."
  | .KYC_REQUIRED => "Additional verification is required to complete this transaction."
  | .COMPLIANCE_BLOCKED => "This transaction cannot be processed due to regulatory requirements."
  | .ANCHOR_UNAVAILABLE => "Our delivery partner is temporarily unavailable. We're working on it."
  | .RATE_EXPIRED => "The exchange rate has expired. Getting you a new quote..."
  | .LIMIT_EXCEEDED => "This amount exceeds your transaction limit."
  | .TECHNICAL_ERROR => "Something went wrong. Our team has been notified."
  | .NETWORK_ERROR => "Connection issue. Please check your internet and try again."
  | .TIMEOUT => "The request took too long. Please try again."

/-- `DeliveryErrorHandler.getUserFriendlyMessage`:
`messages[error.type] || error.message`. -/
def getUserFriendlyMessage (error : DeliveryError) : String :=
  let m := userMessageFor error.type
  if m == "" then error.message else m

/-! ## Anchor registry and corridor lookup (`StellarAnchorService`) -/

/-- `Anchor` interface (IRemittance). -/
structure Anchor where
  code : String
  name : String
  supportedCurrencies : List String
  depositMethods : List String
  withdrawMethods : List String
  minimumAmount : Nat
  maximumAmount : Nat
  kycRequired : Bool
  deriving DecidableEq, Repr

/-- The four anchors registered by `initializeAnchors`, in insertion order
(JS `Map` iteration preserves insertion order). -/
def anchorList : List Anchor :=
  [ { code := "VIBRANT_USD"
      name := "Vibrant (Argentina)"
      supportedCurrencies := ["USD", "ARS"]
      depositMethods := ["bank_transfer", "cash"]
      withdrawMethods := ["bank_transfer", "mobile_wallet"]
      minimumAmount := 10
      maximumAmount := 10000
      kycRequired := true }
  , { code := "CLICK_PHP"
      name := "Click (Philippines)"
      supportedCurrencies := ["PHP", "USD"]
      depositMethods := ["bank_transfer", "gcash", "paymaya"]
      withdrawMethods := ["bank_transfer", "gcash", "paymaya"]
      minimumAmount := 500
      maximumAmount := 500000
      kycRequired := true }
  , { code := "COWRIE_NGN"
      name := "Cowrie (Nigeria)"
      supportedCurrencies := ["NGN", "USD"]
      depositMethods := ["bank_transfer", "mobile_money"]
      withdrawMethods := ["bank_transfer", "mobile_money"]
      minimumAmount := 1000
      maximumAmount := 5000000
      kycRequired := true }
  , { code := "SETTLE_EUR"
      name := "Settle Network (Europe)"
      supportedCurrencies := ["EUR", "USD"]
      depositMethods := ["sepa", "wire"]
      withdrawMethods := ["sepa", "wire"]
      minimumAmount := 10
      maximumAmount := 50000
      kycRequired := true } ]

/-- `this.anchors.get(code)`. -/
def anchorsGet (code : String) : Option Anchor :=
  anchorList.find? (fun a => a.code == code)

/-- The static `corridorMap` object in `getAnchorForCorridor`. -/
def corridorMap : List (String × String) :=
  [ ("US-AR", "VIBRANT_USD")
  , ("US-PH", "CLICK_PHP")
  , ("US-NG", "COWRIE_NGN")
  , ("US-EU", "SETTLE_EUR")
  , ("EU-NG", "COWRIE_NGN")
  , ("EU-PH", "CLICK_PHP") ]

/-- `StellarAnchorService.getAnchorForCorridor`: try the static corridor map
keyed by `fromCountry + '-' + toCountry`; on a miss, fall back to the first
registered anchor supporting the target currency. -/
def getAnchorForCorridor (fromCountry toCountry currency : String) : Option Anchor :=
  let corridorKey := fromCountry ++ "-" ++ toCountry
  match corridorMap.lookup corridorKey with
  | some anchorCode => anchorsGet anchorCode
  | none => anchorList.find? (fun a => a.supportedCurrencies.contains currency)

/-- `StellarAnchorService.getExchangeRate`: static rate table with
fallback 1.0. Amounts are embedded as exact rationals. -/
def getExchangeRate (fromCurrency toCurrency : String) : ℚ :=
  let rates : List (String × ℚ) :=
    [ ("USD-PHP", 56.50)
    , ("USD-NGN", 1520.00)
    , ("USD-ARS", 850.00)
    , ("USD-EUR", 0.92)
    , ("EUR-PHP", 61.41)
    , ("EUR-NGN", 1652.17) ]
  (rates.lookup (fromCurrency ++ "-" ++ toCurrency)).getD 1

/-- `StellarAnchorService.estimateDeliveryTime`: static per-anchor,
per-method minutes table; default 60 minutes (all table entries are
nonzero, so the JS `|| 60` fallback only fires on a missing key). -/
def estimateDeliveryTime (anchorCode method : String) : Nat :=
  let deliveryTimes : List (String × List (String × Nat)) :=
    [ ("VIBRANT_USD", [("bank_transfer", 1440), ("mobile_wallet", 5)])
    , ("CLICK_PHP", [("bank_transfer", 60), ("gcash", 1), ("paymaya", 1)])
    , ("COWRIE_NGN", [("bank_transfer", 120), ("mobile_money", 5)])
    , ("SETTLE_EUR", [("sepa", 1440), ("wire", 2880)]) ]
  match anchorsGet anchorCode with
  | none => 60
  | some _ =>
    match deliveryTimes.lookup anchorCode with
    | none => 60
    | some times => (times.lookup method).getD 60

/-! ## Delivery method registry (`DeliveryMethodHandler`) -/

/-- `DeliveryMethod` scalar fields (the per-field validation schemas are not
needed by any claim and are omitted). -/
structure DeliveryMethod where
  id : String
  name : String
  type : String
  countryCode : String
  currency : String
  minAmount : Nat
  maxAmount : Nat
  estimatedTime : Nat
  feeFixed : Nat
  feePercentage : ℚ
  deriving DecidableEq, Repr

/-- The six methods registered by `initializeDeliveryMethods`, in insertion
order. -/
def deliveryMethodList : List DeliveryMethod :=
  [ { id := "gcash_php", name := "GCash", type := "gcash", countryCode := "PH"
      currency := "PHP", minAmount := 100, maxAmount := 500000
      estimatedTime := 1, feeFixed := 0, feePercentage := 0.5 }
  , { id := "paymaya_php", name := "PayMaya", type := "paymaya", countryCode := "PH"
      currency := "PHP", minAmount := 100, maxAmount := 500000
      estimatedTime := 1, feeFixed := 0, feePercentage := 0.5 }
  , { id := "bank_ph", name := "Bank Transfer", type := "bank_transfer", countryCode := "PH"
      currency := "PHP", minAmount := 1000, maxAmount := 1000000
      estimatedTime := 60, feeFixed := 50, feePercentage := 0.3 }
  , { id := "mobile_money_ngn", name := "Mobile Money", type := "mobile_money", countryCode := "NG"
      currency := "NGN", minAmount := 1000, maxAmount := 5000000
      estimatedTime := 5, feeFixed := 100, feePercentage := 0.6 }
  , { id := "bank_ngn", name := "Bank Transfer", type := "bank_transfer", countryCode := "NG"
      currency := "NGN", minAmount := 5000, maxAmount := 10000000
      estimatedTime := 120, feeFixed := 200, feePercentage := 0.4 }
  , { id := "bank_ars", name := "Bank Transfer", type := "bank_transfer", countryCode := "AR"
      currency := "ARS", minAmount := 1000, maxAmount := 5000000
      estimatedTime := 1440, feeFixed := 500, feePercentage := 0.7 } ]

/-- `DeliveryMethodHandler.getAvailableDeliveryMethods`. -/
def getAvailableDeliveryMethods (countryCode currency : String) : List DeliveryMethod :=
  deliveryMethodList.filter
    (fun method => method.countryCode == countryCode && method.currency == currency)

/-! ## Wrapped Stellar USDC config -/

/-- `WrappedStellarToken` (only the fields the engine reads). -/
structure WrappedStellarToken where
  address : String
  symbol : String
  decimals : Nat
  deriving DecidableEq, Repr

/-- The `WRAPPED_STELLAR_USDC` record keyed by chain name. -/
def wrappedStellarUSDCTable : List (String × WrappedStellarToken) :=
  [ ("ethereum", { address := "0xA0b86991c6218b36c1d19D4a2e9Eb0cE3606eB48", symbol := "sUSDC", decimals := 6 })
  , ("bsc", { address := "0x8AC76a51cc950d9822D68b83fE1Ad97B32Cd580d", symbol := "sUSDC", decimals := 18 })
  , ("polygon", { address := "0x2791Bca1f2de4661ED88A30C99A7a9449Aa84174", symbol := "sUSDC", decimals := 6 })
  , ("arbitrum", { address := "0xFF970A61A04b1cA14834A43f5dE4533eBDDB5CC8", symbol := "sUSDC", decimals := 6 })
  , ("optimism", { address := "0x7F5c764cBc14f9669B88837ca1490cCa17c31607", symbol := "sUSDC", decimals := 6 })
  , ("avalanche", { address := "0xB97EF9Ef8734C71904D8002F8b6Bc66Dd9c48a6E", symbol := "sUSDC", decimals := 6 }) ]

/-- ASCII lower-casing of one character (the chain names this is applied to
are plain ASCII, where JS `toLowerCase` agrees with this). -/
def jsCharLower (c : Char) : Char :=
  if 'A' ≤ c ∧ c ≤ 'Z' then Char.ofNat (c.toNat + 32) else c

/-- JS `chain.toLowerCase()` on ASCII strings. -/
def strToLower (s : String) : String :=
  ⟨s.data.map jsCharLower⟩

/-- `getWrappedStellarUSDC(chain)`: lookup by `chain.toLowerCase()`. -/
def getWrappedStellarUSDC (chain : String) : Option WrappedStellarToken :=
  wrappedStellarUSDCTable.lookup (strToLower chain)

/-! ## Remittance quote (`RemittanceEngine.getQuote`) -/

/-- JS `x.toFixed(2)` on a nonnegative amount, as an exact rational rounded
to two decimal places (round half up). -/
def jsToFixed2 (x : ℚ) : ℚ :=
  (⌊x * 100 + 1 / 2⌋ : ℚ) / 100

/-- `RouteStep` interface. `from'` stands for the source field `from`
(a Lean keyword). -/
structure RouteStep where
  type : String
  from' : String
  to' : String
  protocol : String
  fees : ℚ
  estimatedTime : Nat
  deriving DecidableEq, Repr

/-- `RemittanceQuote` interface, with the numeric fields as exact
rationals. -/
structure RemittanceQuote where
  fromChain : String
  fromToken : String
  fromAmount : String
  toCountry : String
  toCurrency : String
  toAmount : ℚ
  exchangeRate : ℚ
  totalFees : ℚ
  estimatedTime : Nat
  route : List RouteStep
  deriving DecidableEq, Repr

/-- Inputs of `RemittanceEngine.getQuote`. -/
structure QuoteParams where
  fromChain : String
  fromToken : String
  fromAmount : String
  toCountry : String
  toCurrency : String
  deliveryMethod : Option String := none
  deriving DecidableEq, Repr

/-- `RemittanceEngine.getQuote`. The only external call is the 1inch quote;
its outcome is passed in as `oneInch` (`.ok raw` carries the integer
`toAmount` of the aggregator response; `ethers.formatUnits(·, 6)` followed
by `parseFloat` divides it by 10^6). -/
def engineGetQuote (params : QuoteParams) (oneInch : Except RawError Nat) :
    Except RawError RemittanceQuote :=
  match getAnchorForCorridor "US" params.toCountry params.toCurrency with
  | none =>
    .error { message := "No anchor available for " ++ params.toCountry ++ " " ++ params.toCurrency }
  | some anchor =>
  match getWrappedStellarUSDC params.fromChain with
  | none =>
    .error { message := "Wrapped Stellar USDC not available on " ++ params.fromChain }
  | some _ =>
  match oneInch with
  | .error e => .error e
  | .ok rawToAmount =>
    let exchangeRate := getExchangeRate "USD" params.toCurrency
    let usdcAmount : ℚ := (rawToAmount : ℚ) / 1000000
    let localAmount := usdcAmount * exchangeRate
    let method := match params.deliveryMethod with
      | some m => if m == "" then "bank_transfer" else m
      | none => "bank_transfer"
    let route : List RouteStep :=
      [ { type := "swap"
          from' := params.fromChain ++ ":" ++ params.fromToken
          to' := params.fromChain ++ ":USDC"
          protocol := "1inch"
          fees := 0.003
          estimatedTime := 1 }
      , { type := "bridge"
          from' := params.fromChain ++ ":USDC"
          to' := "stellar:USDC"
          protocol := "HTLC"
          fees := 0.001
          estimatedTime := 2 }
      , { type := "anchor"
          from' := "stellar:USDC"
          to' := "bank:" ++ params.toCurrency
          protocol := anchor.code
          fees := 0.005
          estimatedTime := estimateDeliveryTime anchor.code method } ]
    let totalFees := route.foldl (fun sum step => sum + step.fees) 0
    let totalTime := route.foldl (fun sum step => sum + step.estimatedTime) 0
    .ok
      { fromChain := params.fromChain
        fromToken := params.fromToken
        fromAmount := params.fromAmount
        toCountry := params.toCountry
        toCurrency := params.toCurrency
        toAmount := jsToFixed2 (localAmount * (1 - totalFees))
        exchangeRate := exchangeRate
        totalFees := totalFees * 100
        estimatedTime := totalTime
        route := route }

/-! ## Remittance execution (`RemittanceEngine.executeRemittance`) -/

/-- Order lifecycle statuses. -/
inductive OrderStatus where
  | pending
  | processing
  | completed
  | failed
  deriving DecidableEq, Repr

/-- `recommendProtocol` result (it never throws: its catch returns
`'sep24'`). -/
inductive AnchorProtocol where
  | sep6
  | sep24
  deriving DecidableEq, Repr

/-- What `StellarBridge.bridgeToStellar` resolves with. -/
structure BridgeResult where
  htlcId : String
  stellarTxHash : String
  stellarAccount : String
  deriving DecidableEq, Repr

/-- External calls the pipeline can attempt, in pipeline order. The anchor
withdrawal collapses the per-anchor variants (Click/Cowrie integrations,
generic SEP-6 authenticate+withdraw, SEP-24 interactive withdraw) into one
boundary interaction. -/
inductive ExternalCall where
  | swapBuild
  | bridgeTransfer
  | anchorWithdraw
  deriving DecidableEq, Repr

/-- Environment of outcomes for the external stages of one
`executeRemittance` run. -/
structure ExecEnv where
  swapTx : Except RawError Unit
  bridge : Except RawError BridgeResult
  protocol : AnchorProtocol
  withdrawal : Except RawError String
  deriving Repr

/-- Observable result of one `executeRemittance` run: the final in-memory
order status, the persisted status, the value returned or message thrown,
recorded transaction ids, the raw error routed through the classifier (if
any), the classifier's scheduling outcome, and the external calls attempted
in order. -/
structure ExecResult where
  status : OrderStatus
  repoStatus : OrderStatus
  result : Except String Unit
  anchorTxId : Option String
  htlcId : Option String
  stellarTxHash : Option String
  failure : Option RawError
  handling : Option HandleOutcome
  calls : List ExternalCall
  deriving Repr

/-- The catch-block of `executeRemittance`: route the raw error through
`handleDeliveryError` (attempt count 0 for a fresh order), which persists
`'failed'`; set the order `failed`; throw the user-friendly message. -/
def execFail (e : RawError) (calls : List ExternalCall)
    (htlcId stellarTxHash : Option String) : ExecResult :=
  { status := .failed
    repoStatus := .failed
    result := .error (getUserFriendlyMessage (classifyError e))
    anchorTxId := none
    htlcId := htlcId
    stellarTxHash := stellarTxHash
    failure := some e
    handling := some (handleDeliveryError 0 e).2
    calls := calls }

/-- `RemittanceEngine.executeRemittance`, strictly sequential: save the
order `pending`, mark `processing`, build the 1inch swap, bridge to
Stellar, re-resolve the anchor, pick the protocol, run the SEP-6 or SEP-24
withdrawal (the SEP-6 path first checks the recipient's delivery method
against the registry), then mark `completed`; any thrown failure is routed
through the error handler and surfaces as a user-friendly message. -/
def executeRemittance (quote : RemittanceQuote) (recipientDeliveryMethod : String)
    (env : ExecEnv) : ExecResult :=
  match getWrappedStellarUSDC quote.fromChain with
  | none =>
    execFail { message := "Wrapped Stellar USDC not available on " ++ quote.fromChain } [] none none
  | some _ =>
  match env.swapTx with
  | .error e => execFail e [.swapBuild] none none
  | .ok _ =>
  match env.bridge with
  | .error e => execFail e [.swapBuild, .bridgeTransfer] none none
  | .ok htlcResult =>
  match getAnchorForCorridor "US" quote.toCountry quote.toCurrency with
  | none =>
    execFail { message := "No anchor available for this corridor" }
      [.swapBuild, .bridgeTransfer] (some htlcResult.htlcId) (some htlcResult.stellarTxHash)
  | some _anchor =>
  let finishWithdrawal : Except RawError String → ExecResult := fun withdrawal =>
    match withdrawal with
    | .error e =>
      execFail e [.swapBuild, .bridgeTransfer, .anchorWithdraw]
        (some htlcResult.htlcId) (some htlcResult.stellarTxHash)
    | .ok txId =>
      { status := .completed
        repoStatus := .completed
        result := .ok ()
        anchorTxId := some txId
        htlcId := some htlcResult.htlcId
        stellarTxHash := some htlcResult.stellarTxHash
        failure := none
        handling := none
        calls := [.swapBuild, .bridgeTransfer, .anchorWithdraw] }
  match env.protocol with
  | .sep6 =>
    let deliveryMethods := getAvailableDeliveryMethods quote.toCountry quote.toCurrency
    match deliveryMethods.find? (fun m => m.type == recipientDeliveryMethod) with
    | none =>
      execFail { message := "Invalid delivery method" }
        [.swapBuild, .bridgeTransfer] (some htlcResult.htlcId) (some htlcResult.stellarTxHash)
    | some _ => finishWithdrawal env.withdrawal
  | .sep24 => finishWithdrawal env.withdrawal

/-! ## Aggregator client retry loop (`OneInchAggregator.getQuote`) -/

/-- An error thrown inside one attempt of the aggregator quote call:
`status` is `error.response.status` when an HTTP response exists,
`description` and `dataMessage` are `error.response.data?.description` and
`error.response.data?.message`, `code` is `error.code`. -/
structure AggError where
  message : String
  status : Option Nat := none
  description : Option String := none
  dataMessage : Option String := none
  code : Option String := none
  deriving DecidableEq, Repr

/-- `error.response && error.response.status >= 400 && error.response.status < 500`. -/
def isClientError (e : AggError) : Bool :=
  match e.status with
  | some st => 400 ≤ st && st < 500
  | none => false

/-- `OneInchAggregator.handleApiError`: map a failed attempt's error to the
descriptive message thrown to the caller. -/
def handleApiError (e : AggError) : String :=
  match e.status with
  | some status =>
    let msg := (jsOrStr (jsOrStr e.description e.dataMessage) (some "Unknown error")).getD
      "Unknown error"
    if status == 401 then "Invalid 1inch API key. Please check your configuration."
    else if status == 429 then "Rate limit exceeded. Please try again later."
    else if status == 400 then "Bad request: " ++ msg
    else if status == 404 then "Token pair not found or route not available"
    else "1inch API error (" ++ toString status ++ "): " ++ msg
  | none =>
    if e.code == some "ECONNABORTED" then
      "Request timeout - 1inch API took too long to respond"
    else
      "Network error: " ++ e.message

/-- `this.retryCount`. -/
def aggRetryCount : Nat := 3

/-- `this.retryDelay` (milliseconds). -/
def aggRetryDelay : Nat := 1000

/-- Observable result of one `OneInchAggregator.getQuote` call: the thrown
message or success, the backoff delays waited between attempts, and the
number of attempts made. -/
structure AggRun where
  result : Except String Unit
  delays : List Nat
  attemptsMade : Nat
  deriving Repr

/-- One iteration body of the retry loop: the in-try address validation
throws `'Invalid token address'` before the HTTP call; otherwise the
attempt's outcome comes from the environment `res`. -/
def aggAttempt (validAddrs : Bool) (res : Nat → Except AggError Unit) (attempt : Nat) :
    Except AggError Unit :=
  if !validAddrs then .error { message := "Invalid token address" }
  else res attempt

/-- The `for (attempt = 0; attempt < retryCount; attempt++)` loop of
`getQuote`, by recursion on the remaining iterations: client (4xx) errors
abort immediately; other errors wait `retryDelay * 2 ** attempt` and retry
while `attempt < retryCount - 1`; once iterations are exhausted the last
error is mapped by `handleApiError`. -/
def aggLoop (validAddrs : Bool) (res : Nat → Except AggError Unit) :
    Nat → Nat → List Nat → AggRun
  | attempt, 0, delays =>
    -- loop fell through without returning (unreachable: the final failing
    -- iteration already rethrows `handleApiError lastError`)
    { result := .error (handleApiError { message := "" })
      delays := delays.reverse
      attemptsMade := attempt }
  | attempt, remaining + 1, delays =>
    match aggAttempt validAddrs res attempt with
    | .ok _ =>
      { result := .ok ()
        delays := delays.reverse
        attemptsMade := attempt + 1 }
    | .error e =>
      if isClientError e then
        { result := .error (handleApiError e)
          delays := delays.reverse
          attemptsMade := attempt + 1 }
      else if remaining ≥ 1 then
        aggLoop validAddrs res (attempt + 1) remaining
          ((aggRetryDelay * 2 ^ attempt) :: delays)
      else
        { result := .error (handleApiError e)
          delays := delays.reverse
          attemptsMade := attempt + 1 }

/-- `OneInchAggregator.getQuote`, with the address-pattern validation
result and the per-attempt HTTP outcomes as the environment. -/
def aggGetQuote (validAddrs : Bool) (res : Nat → Except AggError Unit) : AggRun :=
  aggLoop validAddrs res 0 aggRetryCount []

/-! ## Derived tables and concrete inputs used by the theorems below -/

/-- The `retryable` flag `classifyError` assigns to each kind (read off the
ten fixed record literals in the source). -/
def kindRetryable : DeliveryErrorType → Bool
  | .INSUFFICIENT_FUNDS => true
  | .INVALID_RECIPIENT => false
  | .KYC_REQUIRED => false
  | .COMPLIANCE_BLOCKED => false
  | .ANCHOR_UNAVAILABLE => true
  | .RATE_EXPIRED => true
  | .LIMIT_EXCEEDED => false
  | .TECHNICAL_ERROR => true
  | .NETWORK_ERROR => true
  | .TIMEOUT => true

/-- The destination countries the engine's corridor catalog
(`getSupportedCorridors`) advertises; the orchestrator passes these full
names as `toCountry`. -/
def supportedCorridorCountries : List String :=
  ["Philippines", "Nigeria", "Argentina", "Philippines"]

/-- Sample quote request: 100 USDC on Ethereum to the Philippines in PHP via
GCash (the spec's §8 scenario). -/
def samplePhpParams : QuoteParams :=
  { fromChain := "ethereum"
    fromToken := "0xA0b86991c6218b36c1d19D4a2e9Eb0cE3606eB48"
    fromAmount := "100000000"
    toCountry := "Philippines"
    toCurrency := "PHP"
    deliveryMethod := some "gcash" }

/-- A quote as produced by the engine for the US→Philippines corridor, used
to drive concrete `executeRemittance` runs. -/
def samplePhpQuote : RemittanceQuote :=
  { fromChain := "ethereum"
    fromToken := "0xA0b86991c6218b36c1d19D4a2e9Eb0cE3606eB48"
    fromAmount := "100000000"
    toCountry := "Philippines"
    toCurrency := "PHP"
    toAmount := 5599.15
    exchangeRate := 56.50
    totalFees := 0.9
    estimatedTime := 4
    route := [] }

/-- An environment where every external stage succeeds and the anchor
recommends the SEP-6 protocol. -/
def allOkSep6Env : ExecEnv :=
  { swapTx := .ok ()
    bridge := .ok { htlcId := "HTLC-1", stellarTxHash := "abc", stellarAccount := "GABC" }
    protocol := .sep6
    withdrawal := .ok "WD-1" }

/-- An environment whose bridge stage throws a timeout. -/
def bridgeTimeoutEnv : ExecEnv :=
  { swapTx := .ok ()
    bridge := .error { message := "socket hang up", code := some "ETIMEDOUT" }
    protocol := .sep6
    withdrawal := .ok "WD-1" }

/-- A server-side (HTTP 500) aggregator failure. -/
def aggServerError : AggError :=
  { message := "Request failed with status code 500"
    status := some 500 }

/-- A raw error carrying both an "insufficient" message and the
`ECONNREFUSED` machine code (the priority-order test input). -/
def insufficientConnRefused : RawError :=
  { message := "withdraw failed: insufficient balance"
    code := some "ECONNREFUSED" }

/-- A client-side (HTTP 401) aggregator failure. -/
def aggUnauthorizedError : AggError :=
  { message := "Request failed with status code 401"
    status := some 401 }

/-! ## Shared lemmas -/

/-- The `retryable` flag of a classified error is determined by its kind. -/
theorem classifyError_retryable (e : RawError) :
    (classifyError e).retryable = kindRetryable (classifyError e).type := by
  simp only [classifyError]
  repeat' split
  all_goals rfl

/-- `getUserFriendlyMessage` always returns the fixed per-kind string (every
entry of the message record is nonempty, so the `|| error.message` fallback
never fires). -/
theorem getUserFriendlyMessage_fixed (de : DeliveryError) :
    getUserFriendlyMessage de = userMessageFor de.type := by
  unfold getUserFriendlyMessage
  cases h : de.type <;> simp [userMessageFor, h]

/-! ## Claim theorems -/

/-- Claim C2: `classifyError` is a deterministic first-match-wins evaluation
of the ten spec rules in the spec's fixed priority order, and in particular
every error whose message contains "insufficient" and whose code is
`ECONNREFUSED` is classified `INSUFFICIENT_FUNDS` (rule 1 beats rules 5
and 9). -/
theorem classifyError_first_match_priority :
    (∀ e : RawError, (classifyError e).type = firstMatchKind specRules e) ∧
    (∀ e : RawError, strIncludes e.message "insufficient" = true →
      e.code = some "ECONNREFUSED" →
      (classifyError e).type = DeliveryErrorType.INSUFFICIENT_FUNDS) := by
  constructor
  · intro e
    simp only [specRules, firstMatchKind, classifyError]
    repeat' split
    all_goals simp_all
  · intro e hmsg _
    simp [classifyError, hmsg]

/-- Witness for C2 at a concrete error carrying both the "insufficient"
message and the `ECONNREFUSED` code. -/
theorem classifyError_first_match_priority_witness :
    strIncludes insufficientConnRefused.message "insufficient" = true ∧
    (classifyError insufficientConnRefused).type = DeliveryErrorType.INSUFFICIENT_FUNDS :=
  ⟨by decide,
    classifyError_first_match_priority.2 insufficientConnRefused (by decide) rfl⟩

/-- Claim C3: an error classified `RATE_EXPIRED` schedules at most one retry
(zero delay on the first failure, manual review on any later one), while
`COMPLIANCE_BLOCKED` and `KYC_REQUIRED` never schedule a retry — they take
the refund-required path at every attempt count. -/
theorem retryPolicy_rateExpired_compliance (e : RawError) (attempts : Nat) :
    ((classifyError e).type = DeliveryErrorType.RATE_EXPIRED →
      (handleDeliveryError 0 e).2 = HandleOutcome.retryScheduled 0 ∧
      (1 ≤ attempts →
        (handleDeliveryError attempts e).2 = HandleOutcome.manualReviewRequired)) ∧
    ((classifyError e).type = DeliveryErrorType.COMPLIANCE_BLOCKED ∨
        (classifyError e).type = DeliveryErrorType.KYC_REQUIRED →
      (handleDeliveryError attempts e).2 = HandleOutcome.refundRequired) := by
  have hr := classifyError_retryable e
  constructor
  · intro ht
    rw [ht] at hr
    refine ⟨?_, fun ha => ?_⟩
    · simp [handleDeliveryError, hr, kindRetryable, scheduleRetry, getRetryPolicy, ht,
        rateExpiredPolicy, retryDelayFor]
    · simp [handleDeliveryError, hr, kindRetryable, scheduleRetry, getRetryPolicy, ht,
        rateExpiredPolicy, ha]
  · intro ht
    rcases ht with ht | ht <;> rw [ht] at hr <;>
      simp [handleDeliveryError, hr, kindRetryable]

/-- Witness for C3: a rate-expired failure schedules exactly one zero-delay
retry and then escalates; a compliance-blocked failure goes straight to the
refund path. -/
theorem retryPolicy_rateExpired_compliance_witness :
    (handleDeliveryError 0 { message := "rate expired" }).2 = HandleOutcome.retryScheduled 0 ∧
    (handleDeliveryError 1 { message := "rate expired" }).2 =
      HandleOutcome.manualReviewRequired ∧
    (handleDeliveryError 0 { message := "transaction blocked by screening" }).2 =
      HandleOutcome.refundRequired :=
  ⟨((retryPolicy_rateExpired_compliance { message := "rate expired" } 1).1 (by decide)).1,
    ((retryPolicy_rateExpired_compliance { message := "rate expired" } 1).1
      (by decide)).2 (by decide),
    (retryPolicy_rateExpired_compliance { message := "transaction blocked by screening" } 0).2
      (Or.inl (by decide))⟩

/-- Claim C4: under the default policy a repeatedly failing order classified
`TECHNICAL_ERROR` is scheduled with delays exactly 5000 ms, 10000 ms and
20000 ms over the 3 permitted attempts (each delay
`initialDelay * backoffMultiplier ^ attempts`, capped at 300000 ms) and the
fourth failure takes the manual-review path. -/
theorem defaultRetry_delays (e : RawError)
    (h : (classifyError e).type = DeliveryErrorType.TECHNICAL_ERROR) :
    failureOutcomes e 4 =
      [HandleOutcome.retryScheduled 5000, HandleOutcome.retryScheduled 10000,
        HandleOutcome.retryScheduled 20000, HandleOutcome.manualReviewRequired] ∧
    ∀ attempts : Nat,
      retryDelayFor (getRetryPolicy DeliveryErrorType.TECHNICAL_ERROR) attempts =
        min (5000 * 2 ^ attempts) 300000 := by
  have hr := classifyError_retryable e
  rw [h] at hr
  refine ⟨?_, fun attempts => rfl⟩
  simp [failureOutcomes, List.range_succ, handleDeliveryError, hr, kindRetryable, h,
    scheduleRetry, getRetryPolicy, defaultPolicy, retryDelayFor]

/-- Witness for C4 at a concrete raw error that classifies as
`TECHNICAL_ERROR`. -/
theorem defaultRetry_delays_witness :
    failureOutcomes { message := "unexpected database failure" } 4 =
      [HandleOutcome.retryScheduled 5000, HandleOutcome.retryScheduled 10000,
        HandleOutcome.retryScheduled 20000, HandleOutcome.manualReviewRequired] :=
  (defaultRetry_delays { message := "unexpected database failure" } (by decide)).1

/-- Claim C1: every `executeRemittance` run ends with the order in a
terminal status — `completed` exactly when the call returns normally,
`failed` on any pipeline failure — both in memory and in the repository;
it is never left `pending` or `processing`. -/
theorem executeRemittance_terminal_status (quote : RemittanceQuote)
    (deliveryMethod : String) (env : ExecEnv) :
    ((executeRemittance quote deliveryMethod env).status = OrderStatus.completed ∨
      (executeRemittance quote deliveryMethod env).status = OrderStatus.failed) ∧
    (executeRemittance quote deliveryMethod env).repoStatus =
      (executeRemittance quote deliveryMethod env).status ∧
    ((executeRemittance quote deliveryMethod env).status = OrderStatus.completed ↔
      ∃ u, (executeRemittance quote deliveryMethod env).result = Except.ok u) := by
  simp only [executeRemittance]
  repeat' split
  all_goals simp [execFail]

/-- Counterexample to claim C5: executing with an unmapped delivery method
does fail with the `Invalid delivery method` error, but only after the
aggregator swap build and the bridge transfer have already been attempted —
the failure does not precede all external calls. -/
theorem executeRemittance_not_fail_fast :
    (executeRemittance samplePhpQuote "carrier_pigeon" allOkSep6Env).failure =
      some { message := "Invalid delivery method" } ∧
    (executeRemittance samplePhpQuote "carrier_pigeon" allOkSep6Env).calls =
      [ExternalCall.swapBuild, ExternalCall.bridgeTransfer] ∧
    (executeRemittance samplePhpQuote "carrier_pigeon" allOkSep6Env).calls ≠ [] := by
  refine ⟨by decide, by decide, by decide⟩

/-- Claim C5 (amended): when the recipient's delivery method does not map to
a configured delivery method for the destination country and currency, the
SEP-6 path of `executeRemittance` fails with the `Invalid delivery method`
error before the anchor withdrawal is attempted — but only after the
aggregator swap build and the bridge transfer have been attempted. -/
theorem executeRemittance_invalid_method (quote : RemittanceQuote)
    (deliveryMethod : String) (env : ExecEnv)
    (hw : (getWrappedStellarUSDC quote.fromChain).isSome = true)
    (hs : env.swapTx = Except.ok ())
    (hb : ∃ br, env.bridge = Except.ok br)
    (ha : (getAnchorForCorridor "US" quote.toCountry quote.toCurrency).isSome = true)
    (hp : env.protocol = AnchorProtocol.sep6)
    (hm : (getAvailableDeliveryMethods quote.toCountry quote.toCurrency).find?
      (fun m => m.type == deliveryMethod) = none) :
    (executeRemittance quote deliveryMethod env).failure =
      some { message := "Invalid delivery method" } ∧
    (executeRemittance quote deliveryMethod env).calls =
      [ExternalCall.swapBuild, ExternalCall.bridgeTransfer] := by
  obtain ⟨br, hb⟩ := hb
  obtain ⟨w, hw⟩ := Option.isSome_iff_exists.mp hw
  obtain ⟨a, ha⟩ := Option.isSome_iff_exists.mp ha
  simp only [executeRemittance, hw, hs, hb, ha, hp, hm]
  simp [execFail]

/-- Witness for the amended C5 at the sample Philippines quote with an
unknown delivery method. -/
theorem executeRemittance_invalid_method_witness :
    (executeRemittance samplePhpQuote "pigeon_post" allOkSep6Env).failure =
      some { message := "Invalid delivery method" } ∧
    (executeRemittance samplePhpQuote "pigeon_post" allOkSep6Env).calls =
      [ExternalCall.swapBuild, ExternalCall.bridgeTransfer] :=
  executeRemittance_invalid_method samplePhpQuote "pigeon_post" allOkSep6Env
    (by decide) rfl ⟨_, rfl⟩ (by decide) rfl (by decide)

/-- Claim C6: every failure thrown out of `executeRemittance` carries
exactly the fixed per-kind user-facing string for the classified kind of
the underlying raw error; the raw error text itself is never what the
caller receives. -/
theorem executeRemittance_user_safe_message (quote : RemittanceQuote)
    (deliveryMethod : String) (env : ExecEnv) (msg : String)
    (h : (executeRemittance quote deliveryMethod env).result = Except.error msg) :
    ∃ e, (executeRemittance quote deliveryMethod env).failure = some e ∧
      msg = userMessageFor (classifyError e).type := by
  revert h
  simp only [executeRemittance]
  repeat' split
  all_goals intro h
  all_goals simp [execFail, getUserFriendlyMessage_fixed] at h ⊢
  all_goals simp [h]

/-- Witness for C6: a bridge-stage timeout surfaces as the fixed `TIMEOUT`
message. -/
theorem executeRemittance_user_safe_message_witness :
    ∃ e, (executeRemittance samplePhpQuote "gcash" bridgeTimeoutEnv).failure = some e ∧
      "The request took too long. Please try again." =
        userMessageFor (classifyError e).type :=
  executeRemittance_user_safe_message samplePhpQuote "gcash" bridgeTimeoutEnv
    "The request took too long. Please try again." (by rfl)

/-- Counterexample to claim C7: when every attempt fails with a server
error, the loop makes its 3 attempts with only two backoff waits — 1000 ms
and then 2000 ms — between them; no 4000 ms wait ever occurs, so the claimed
delay sequence 1 s, 2 s, 4 s is wrong. -/
theorem aggGetQuote_delays_counterexample :
    (aggGetQuote true (fun _ => Except.error aggServerError)).delays = [1000, 2000] ∧
    (aggGetQuote true (fun _ => Except.error aggServerError)).delays ≠ [1000, 2000, 4000] ∧
    (aggGetQuote true (fun _ => Except.error aggServerError)).attemptsMade = 3 :=
  ⟨by decide, by decide, by decide⟩

/-- Any run of the retry loop that still has at least one iteration to go
makes at least one more attempt. -/
theorem aggLoop_attemptsMade_lower (validAddrs : Bool)
    (res : Nat → Except AggError Unit) :
    ∀ remaining attempt delays, 1 ≤ remaining →
      attempt + 1 ≤ (aggLoop validAddrs res attempt remaining delays).attemptsMade := by
  intro remaining
  induction remaining with
  | zero => intro attempt delays h; omega
  | succ n ih =>
    intro attempt delays _
    rcases h : aggAttempt validAddrs res attempt with e | u
    · by_cases c : isClientError e
      · simp [aggLoop, h, c]
      · by_cases hn : 1 ≤ n
        · have step := ih (attempt + 1) ((aggRetryDelay * 2 ^ attempt) :: delays) hn
          simp only [aggLoop, h, c, hn, ge_iff_le, if_true, if_false, Bool.false_eq_true]
          omega
        · simp [aggLoop, h, c, hn]
    · simp [aggLoop, h]

/-- Claim C7 (amended): `getQuote` makes at most 3 attempts; the waits
between attempts form a prefix of the backoff schedule 1000 ms then 2000 ms
(a 4000 ms wait never occurs); a 4xx response at whichever attempt it
occurs aborts immediately — no further attempt, no further wait — with the
error mapped by `handleApiError`, whose 401/429/400/404 messages are the
fixed descriptive strings; and a failed attempt whose error carries no 4xx
response is always retried while attempts remain — which covers not only
server/network-class failures but also the loop's own local
invalid-address validation error. -/
theorem aggGetQuote_retry_behavior (validAddrs : Bool)
    (res : Nat → Except AggError Unit) :
    (aggGetQuote validAddrs res).attemptsMade ≤ 3 ∧
    ((aggGetQuote validAddrs res).delays = [] ∨
      (aggGetQuote validAddrs res).delays = [1000] ∨
      (aggGetQuote validAddrs res).delays = [1000, 2000]) ∧
    (∀ k, ∀ e : AggError, k < 3 →
      (∀ j, j < k → ∃ ej, aggAttempt validAddrs res j = Except.error ej ∧
        isClientError ej = false) →
      aggAttempt validAddrs res k = Except.error e →
      isClientError e = true →
      (aggGetQuote validAddrs res).result = Except.error (handleApiError e) ∧
      (aggGetQuote validAddrs res).attemptsMade = k + 1 ∧
      (aggGetQuote validAddrs res).delays = (List.range k).map (fun i => 1000 * 2 ^ i)) ∧
    (∀ k, k < 2 →
      (∀ j, j ≤ k → ∃ ej, aggAttempt validAddrs res j = Except.error ej ∧
        isClientError ej = false) →
      k + 2 ≤ (aggGetQuote validAddrs res).attemptsMade) ∧
    (isClientError { message := "Invalid token address" } = false ∧
      (aggGetQuote false res).attemptsMade = 3 ∧
      (aggGetQuote false res).delays = [1000, 2000] ∧
      (aggGetQuote false res).result =
        Except.error "Network error: Invalid token address") ∧
    handleApiError { message := "m", status := some 401 } =
      "Invalid 1inch API key. Please check your configuration." ∧
    handleApiError { message := "m", status := some 429 } =
      "Rate limit exceeded. Please try again later." ∧
    handleApiError { message := "m", status := some 400 } = "Bad request: Unknown error" ∧
    handleApiError { message := "m", status := some 404 } =
      "Token pair not found or route not available" := by
  have h12 : (aggGetQuote validAddrs res).attemptsMade ≤ 3 ∧
      ((aggGetQuote validAddrs res).delays = [] ∨
        (aggGetQuote validAddrs res).delays = [1000] ∨
        (aggGetQuote validAddrs res).delays = [1000, 2000]) := by
    rcases h0 : aggAttempt validAddrs res 0 with e0 | u0
    on_goal 2 => simp_all [aggGetQuote, aggLoop, aggRetryDelay]
    by_cases c0 : isClientError e0
    · simp_all [aggGetQuote, aggLoop, aggRetryDelay]
    rcases h1 : aggAttempt validAddrs res 1 with e1 | u1
    on_goal 2 => simp_all [aggGetQuote, aggLoop, aggRetryDelay]
    by_cases c1 : isClientError e1
    · simp_all [aggGetQuote, aggLoop, aggRetryDelay]
    rcases h2 : aggAttempt validAddrs res 2 with e2 | u2
    on_goal 2 => simp_all [aggGetQuote, aggLoop, aggRetryDelay]
    by_cases c2 : isClientError e2
    · simp_all [aggGetQuote, aggLoop, aggRetryDelay]
    · simp_all [aggGetQuote, aggLoop, aggRetryDelay]
  refine ⟨h12.1, h12.2, ?_, ?_, ⟨by decide, by rfl, by rfl, by rfl⟩, rfl, rfl, rfl, rfl⟩
  · intro k e hk hprev hke hce
    interval_cases k
    · simp_all [aggGetQuote, aggLoop, aggRetryDelay]
    · obtain ⟨e0, h0, c0⟩ := hprev 0 (by omega)
      simp_all [aggGetQuote, aggLoop, aggRetryDelay]
      decide
    · obtain ⟨e0, h0, c0⟩ := hprev 0 (by omega)
      obtain ⟨e1, h1, c1⟩ := hprev 1 (by omega)
      simp_all [aggGetQuote, aggLoop, aggRetryDelay]
      decide
  · intro k hk hprev
    interval_cases k
    · obtain ⟨e0, h0, c0⟩ := hprev 0 (Nat.le_refl 0)
      have heq : aggGetQuote validAddrs res = aggLoop validAddrs res 1 2 [1000] := by
        simp [aggGetQuote, aggLoop, h0, c0, aggRetryDelay]
      have hlow := aggLoop_attemptsMade_lower validAddrs res 2 1 [1000] (by omega)
      rw [heq]
      omega
    · obtain ⟨e0, h0, c0⟩ := hprev 0 (by omega)
      obtain ⟨e1, h1, c1⟩ := hprev 1 (Nat.le_refl 1)
      have heq : aggGetQuote validAddrs res = aggLoop validAddrs res 2 1 [2000, 1000] := by
        simp [aggGetQuote, aggLoop, h0, c0, h1, c1, aggRetryDelay]
      have hlow := aggLoop_attemptsMade_lower validAddrs res 1 2 [2000, 1000] (by omega)
      rw [heq]
      omega

/-- Witness for the amended C7: a 401 on the first attempt aborts after one
attempt with no backoff wait and the mapped message, and a repeated server
(HTTP 500) failure at the first attempt is retried. -/
theorem aggGetQuote_retry_behavior_witness :
    ((aggGetQuote true (fun _ => Except.error aggUnauthorizedError)).result =
      Except.error (handleApiError aggUnauthorizedError) ∧
    (aggGetQuote true (fun _ => Except.error aggUnauthorizedError)).attemptsMade = 0 + 1 ∧
    (aggGetQuote true (fun _ => Except.error aggUnauthorizedError)).delays =
      (List.range 0).map (fun i => 1000 * 2 ^ i)) ∧
    0 + 2 ≤ (aggGetQuote true (fun _ => Except.error aggServerError)).attemptsMade :=
  ⟨(aggGetQuote_retry_behavior true (fun _ => Except.error aggUnauthorizedError)).2.2.1
      0 aggUnauthorizedError (by omega) (fun j hj => absurd hj (Nat.not_lt_zero j))
      rfl (by decide),
    (aggGetQuote_retry_behavior true (fun _ => Except.error aggServerError)).2.2.2.1
      0 (by omega) (fun j _ => ⟨aggServerError, rfl, by decide⟩)⟩

/-- Claim C8: every quote produced by `getQuote` has a route of exactly 3
steps — swap, bridge, anchor in that order — its `totalFees` is the sum of
the per-step fee fractions times 100, and its `estimatedTime` is the sum of
the per-step estimated minutes. -/
theorem engineGetQuote_route_invariants (params : QuoteParams)
    (oneInch : Except RawError Nat) (q : RemittanceQuote)
    (h : engineGetQuote params oneInch = Except.ok q) :
    q.route.length = 3 ∧
    q.route.map (fun step => step.type) = ["swap", "bridge", "anchor"] ∧
    q.totalFees = (q.route.foldl (fun sum step => sum + step.fees) 0) * 100 ∧
    q.estimatedTime = q.route.foldl (fun sum step => sum + step.estimatedTime) 0 := by
  revert h
  simp only [engineGetQuote]
  repeat' split
  all_goals intro h
  all_goals cases h
  all_goals exact ⟨rfl, rfl, rfl, rfl⟩

/-- Witness for C8 at the sample Philippines quote request. -/
theorem engineGetQuote_route_invariants_witness :
    ∃ q, engineGetQuote samplePhpParams (Except.ok 100000000) = Except.ok q ∧
      q.route.length = 3 ∧
      q.route.map (fun step => step.type) = ["swap", "bridge", "anchor"] ∧
      q.totalFees = (q.route.foldl (fun sum step => sum + step.fees) 0) * 100 ∧
      q.estimatedTime = q.route.foldl (fun sum step => sum + step.estimatedTime) 0 :=
  ⟨_, rfl, engineGetQuote_route_invariants samplePhpParams (Except.ok 100000000) _ rfl⟩

/-- Claim C9: every quote's `toAmount` is the swapped settlement amount
(the aggregator's integer output over 10^6) times the static exchange rate
for the destination currency, times one minus the route's total fee
fraction, rounded to 2 decimal places. -/
theorem engineGetQuote_toAmount_formula (params : QuoteParams) (raw : Nat)
    (q : RemittanceQuote) (h : engineGetQuote params (Except.ok raw) = Except.ok q) :
    q.toAmount = jsToFixed2 ((raw : ℚ) / 1000000 *
      getExchangeRate "USD" params.toCurrency *
      (1 - q.route.foldl (fun sum step => sum + step.fees) 0)) := by
  revert h
  simp only [engineGetQuote]
  repeat' split
  all_goals intro h
  all_goals cases h
  all_goals rfl

/-- Witness for C9: on the spec's scenario — 100 USDC (raw 100000000) to
PHP at rate 56.50 with fee fractions [0.003, 0.001, 0.005] — the formula
gives exactly 5599.15. -/
theorem engineGetQuote_toAmount_formula_witness :
    ∃ q, engineGetQuote samplePhpParams (Except.ok 100000000) = Except.ok q ∧
      q.toAmount = jsToFixed2 ((100000000 : ℚ) / 1000000 *
        getExchangeRate "USD" samplePhpParams.toCurrency *
        (1 - q.route.foldl (fun sum step => sum + step.fees) 0)) ∧
      q.toAmount = (5599.15 : ℚ) := by
  refine ⟨_, rfl, engineGetQuote_toAmount_formula samplePhpParams 100000000 _ rfl, ?_⟩
  simp [engineGetQuote, getAnchorForCorridor, corridorMap, anchorsGet, anchorList,
    getWrappedStellarUSDC, wrappedStellarUSDCTable, strToLower, jsCharLower,
    getExchangeRate, estimateDeliveryTime, samplePhpParams, jsToFixed2]
  norm_num

/-- Claim C10: for each destination country name the engine actually
passes ('Philippines', 'Nigeria', 'Argentina'), the two-letter-keyed
corridor map misses, so `getAnchorForCorridor` always falls through to the
first anchor — in registration order VIBRANT_USD, CLICK_PHP, COWRIE_NGN,
SETTLE_EUR — whose `supportedCurrencies` contains the requested currency
(`none` when no anchor supports it). -/
theorem getAnchorForCorridor_name_mismatch (country currency : String)
    (h : country ∈ supportedCorridorCountries) :
    corridorMap.lookup ("US" ++ "-" ++ country) = none ∧
    getAnchorForCorridor "US" country currency =
      anchorList.find? (fun a => a.supportedCurrencies.contains currency) ∧
    anchorList.map (fun a => a.code) =
      ["VIBRANT_USD", "CLICK_PHP", "COWRIE_NGN", "SETTLE_EUR"] := by
  fin_cases h <;>
    exact ⟨by decide, by simp [getAnchorForCorridor, corridorMap, List.lookup], by decide⟩

/-- Witness for C10: the US→Philippines PHP request misses the corridor map
and falls back to CLICK_PHP, the first registered anchor supporting PHP. -/
theorem getAnchorForCorridor_name_mismatch_witness :
    (corridorMap.lookup ("US" ++ "-" ++ "Philippines") = none ∧
      getAnchorForCorridor "US" "Philippines" "PHP" =
        anchorList.find? (fun a => a.supportedCurrencies.contains "PHP") ∧
      anchorList.map (fun a => a.code) =
        ["VIBRANT_USD", "CLICK_PHP", "COWRIE_NGN", "SETTLE_EUR"]) ∧
    (getAnchorForCorridor "US" "Philippines" "PHP").map (fun a => a.code) =
      some "CLICK_PHP" :=
  ⟨getAnchorForCorridor_name_mismatch "Philippines" "PHP" (by decide), by decide⟩

end RemitDex
